import Mathlib

/-!
Shallow embedding of `src/py/selenium/webdriver/chrome/service.py`:
the `Service` class that starts, health-checks and stops a ChromeDriver
subprocess, plus the `utils` helpers it calls (`free_port`,
`is_connectable`).

External effects (OS process spawning, TCP connectability probes, the
HTTP shutdown request, the process-kill signal, the ephemeral port the
OS hands out) are modelled as explicit oracle parameters, so every
operation is a pure function of the object state and the oracles.
Python exceptions are modelled with `Except`; the error value carries
the object state at the moment the exception propagates, since the
Python object survives an exception raised by one of its methods.
-/

/-- A Python instance attribute: `unset` means the attribute was never
assigned, so reading it raises `AttributeError`; `val x` means it holds
`x`.  `Service.__init__` never assigns `self.process`, so that attribute
starts out `unset`. -/
inductive Attr (α : Type) where
  | unset : Attr α
  | val : α → Attr α
  deriving DecidableEq, Repr

/-- The observable footprint of a `subprocess.Popen` handle: the argument
vector and environment it was spawned with, whether its piped stdout and
stderr are still open, and whether `kill` / `wait` have been performed. -/
structure Proc where
  argv : List String
  procEnv : List (String × String)
  stdoutOpen : Bool
  stderrOpen : Bool
  killed : Bool
  waited : Bool
  deriving DecidableEq, Repr

/-- Exceptions the embedded code can raise. `webDriverException` carries
the formatted message string; `osError` carries the errno of a spawn
failure re-raised unchanged; `urlError` is a failure of the
`urlopen("/shutdown")` request; `attributeError` is Python's error for
reading an attribute that was never assigned. -/
inductive PyErr where
  | attributeError : PyErr
  | webDriverException : String → PyErr
  | osError : Nat → PyErr
  | urlError : PyErr
  deriving DecidableEq, Repr

/-- State of one `Service` object: the fields `__init__` assigns, plus
the `process` attribute that only `start` ever assigns. -/
structure Service where
  port : Nat
  path : String
  service_args : List String
  env : Option (List (String × String))
  process : Attr (Option Proc)
  deriving DecidableEq, Repr

/-- `errno.ENOENT`. -/
def ENOENT : Nat := 2

/-- `errno.EACCES`. -/
def EACCES : Nat := 13

/-- An ASCII apostrophe, as used in the formatted error messages. -/
def quoteChar : String := "\x27"

/-- `os.path.basename`: the part of the path after the last slash. -/
def basename (p : String) : String :=
  (p.splitOn "/").getLastD ""

/-- The help-documentation pointer interpolated into spawn-failure
messages (`docs_msg` in `Service.start`). -/
def docs_msg : String :=
  "Please see https://sites.google.com/a/chromium.org/chromedriver/home"

/-- Message of the exception raised when spawning fails with `ENOENT`. -/
def enoentMsg (path : String) : String :=
  quoteChar ++ basename path ++ quoteChar ++
    " executable needs to be in PATH. " ++ docs_msg

/-- Message of the exception raised when spawning fails with `EACCES`. -/
def eaccesMsg (path : String) : String :=
  quoteChar ++ basename path ++ quoteChar ++
    " executable may have wrong permissions. " ++ docs_msg

/-- Message of the exception raised when readiness polling exhausts its
30 attempts. -/
def unreachableMsg (path : String) : String :=
  "Can not connect to the " ++ quoteChar ++ basename path ++ quoteChar

/-- The `--port=<port>` flag built in `Service.start`. -/
def portFlag (port : Nat) : String :=
  "--port=" ++ toString port

/-- The `--log-path=<path>` argument `__init__` appends when a log path
is given. -/
def logFlag (lp : String) : String :=
  "--log-path=" ++ lp

/-- `Service.__init__`.  `freePort` is the oracle for
`utils.free_port()`, consulted only when the requested port is 0.
`service_args or []` replaces a missing or empty list by a fresh empty
list; a truthy `log_path` (present and non-empty) appends the log flag
once; `self.process` is never assigned. -/
def Service.init (freePort : Nat) (executable_path : String)
    (port : Nat) (service_args : Option (List String))
    (log_path : Option String)
    (env : Option (List (String × String))) : Service :=
  let args0 := service_args.getD []
  let args :=
    match log_path with
    | none => args0
    | some lp => if lp = "" then args0 else args0 ++ [logFlag lp]
  { port := if port = 0 then freePort else port
    path := executable_path
    service_args := args
    env := env
    process := Attr.unset }

/-- The full argument vector `start` passes to `subprocess.Popen`:
`[self.path, "--port=%d" % self.port] + self.service_args`. -/
def builtArgv (s : Service) : List String :=
  s.path :: portFlag s.port :: s.service_args

/-- `env = self.env or os.environ`: a missing or empty (falsy) mapping
falls back to the inherited process environment. -/
def effectiveEnv (selfEnv : Option (List (String × String)))
    (osEnviron : List (String × String)) : List (String × String) :=
  match selfEnv with
  | none => osEnviron
  | some l => if l = [] then osEnviron else l

/-- Oracles consulted by `Service.start`: the outcome of
`subprocess.Popen` (`some errno` means it raised `OSError(errno)`,
`none` means the spawn succeeded), the result of the k-th
`utils.is_connectable(port)` call (0-based), and `os.environ`. -/
structure StartEnv where
  spawnErrno : Option Nat
  conn : Nat → Bool
  osEnviron : List (String × String)

/-- The readiness-polling loop of `start`:
`count = 0; while not is_connectable(port): count += 1; sleep(1);`
`if count == 30: raise`.  `i` is the number of probes already made and
`fuel` the number of failed probes still allowed (30 at entry, i.e.
`30 - count`).  Returns `.ok n` with `n` the total number of probes on
the first successful connect, `.error n` with `n = 30` probes when the
failure count reaches 30. -/
def startPoll (conn : Nat → Bool) : Nat → Nat → Except Nat Nat
  | i, 0 => Except.error i
  | i, fuel + 1 =>
      if conn i then Except.ok (i + 1) else startPoll conn (i + 1) fuel

/-- The `Popen` handle created by a successful spawn in `start`: fresh
pipes, not yet killed or waited on, spawned with the built argument
vector and the effective environment. -/
def spawnedProc (s : Service) (e : StartEnv) : Proc :=
  { argv := builtArgv s
    procEnv := effectiveEnv s.env e.osEnviron
    stdoutOpen := true
    stderrOpen := true
    killed := false
    waited := false }

/-- `Service.start`, returning the outcome paired with the number of
`is_connectable` probes made (0 when the spawn itself failed).  A spawn
failure with `ENOENT` / `EACCES` becomes a `WebDriverException` naming
the executable's base name; any other `OSError` is re-raised unchanged.
On a successful spawn `self.process` is assigned before polling begins,
so it stays assigned even when polling raises. -/
def Service.start (e : StartEnv) (s : Service) :
    Except (PyErr × Service) Service × Nat :=
  match e.spawnErrno with
  | some en =>
      if en = ENOENT then
        (Except.error (PyErr.webDriverException (enoentMsg s.path), s), 0)
      else if en = EACCES then
        (Except.error (PyErr.webDriverException (eaccesMsg s.path), s), 0)
      else
        (Except.error (PyErr.osError en, s), 0)
  | none =>
      let s1 := { s with process := Attr.val (some (spawnedProc s e)) }
      match startPoll e.conn 0 30 with
      | Except.ok n => (Except.ok s1, n)
      | Except.error n =>
          (Except.error
            (PyErr.webDriverException (unreachableMsg s.path), s1), n)

/-- `service_url`: `"http://localhost:%d" % self.port`. -/
def Service.service_url (s : Service) : String :=
  "http://localhost:" ++ toString s.port

/-- Oracles consulted by `Service.stop`: whether
`urlopen("http://127.0.0.1:<port>/shutdown")` succeeds, the result of
the k-th `is_connectable` probe of its wind-down loop, and whether
`self.process.kill()` raises the `OSError` that the code deliberately
swallows (observed on platforms without kill support). -/
structure StopEnv where
  urlopenOk : Bool
  conn : Nat → Bool
  killRaises : Bool

/-- The wind-down loop of `stop`:
`count = 0; while is_connectable(port): if count == 30: break;`
`count += 1; sleep(1)`.  Pure probing with no effect on the object;
returns the number of probes made (at most 31). -/
def stopPoll (conn : Nat → Bool) : Nat → Nat → Nat
  | i, 0 => i
  | i, fuel + 1 => if conn i then stopPoll conn (i + 1) fuel else i + 1

/-- `Service.stop`.  Reading `self.process` on an object on which
`start` was never called raises `AttributeError` (the attribute is never
assigned by `__init__`).  The `urlopen` shutdown request is not guarded:
if it raises, the error propagates and the forced cleanup below it never
runs.  The cleanup closes both pipes, then kills and waits; a kill that
raises `OSError` is swallowed, leaving the wait undone. -/
def Service.stop (e : StopEnv) (s : Service) :
    Except (PyErr × Service) Service :=
  match s.process with
  | Attr.unset => Except.error (PyErr.attributeError, s)
  | Attr.val none => Except.ok s
  | Attr.val (some p) =>
      if e.urlopenOk then
        let _probes := stopPoll e.conn 0 31
        let p1 := { p with stdoutOpen := false, stderrOpen := false }
        if e.killRaises then
          Except.ok { s with process := Attr.val (some p1) }
        else
          Except.ok
            { s with process :=
                Attr.val (some { p1 with killed := true, waited := true }) }
      else
        Except.error (PyErr.urlError, s)

/-- The object state after a method call, whether the call returned
normally or raised: a Python object survives an exception propagating
out of one of its methods. -/
def outState : Except (PyErr × Service) Service → Service
  | Except.ok s => s
  | Except.error (_, s) => s

/-- A connectability oracle for a port that is never listening. -/
def connNever : Nat → Bool := fun _ => false

/-- A connectability oracle for a port that accepts every connect. -/
def connAlways : Nat → Bool := fun _ => true

/-- The handle spawned by starting
`Service.init 9515 "chromedriver" 0 none none none` with an empty
inherited environment. -/
def procA : Proc :=
  { argv := ["chromedriver", "--port=9515"]
    procEnv := []
    stdoutOpen := true
    stderrOpen := true
    killed := false
    waited := false }

/-- The state of that instance after a successful `start`. -/
def startedS : Service :=
  { port := 9515
    path := "chromedriver"
    service_args := []
    env := none
    process := Attr.val (some procA) }

/-- `procA` after `stop`'s forced cleanup ran to completion. -/
def procStopped : Proc :=
  { procA with stdoutOpen := false, stderrOpen := false,
               killed := true, waited := true }

/-- The state of the instance after a successful `stop`: the `process`
attribute still holds the (now cleaned-up) handle, it is not cleared. -/
def stoppedS : Service :=
  { startedS with process := Attr.val (some procStopped) }

/-- A freshly constructed instance: `Service("chromedriver")`, with the
ephemeral-port oracle returning 9515. -/
def initS : Service :=
  Service.init 9515 "chromedriver" 0 none none none

/-- Whether the `process` attribute holds a live handle (assigned, and
assigned to an actual process object). -/
def hasHandle : Attr (Option Proc) → Bool
  | Attr.val (some _) => true
  | _ => false

lemma startPoll_never (conn : Nat → Bool) (h : ∀ i, conn i = false) :
    ∀ (fuel i : Nat), startPoll conn i fuel = Except.error (i + fuel) := by
  intro fuel
  induction fuel with
  | zero => intro i; rfl
  | succ n ih =>
      intro i
      simp only [startPoll, h i, Bool.false_eq_true, if_false]
      rw [ih (i + 1)]
      congr 1
      omega

lemma start_spawn_ok (s : Service) (e : StartEnv) (he : e.spawnErrno = none) :
    outState (Service.start e s).1 =
      { s with process := Attr.val (some (spawnedProc s e)) } := by
  cases h : startPoll e.conn 0 30 with
  | ok n => simp [Service.start, he, h, outState]
  | error n => simp [Service.start, he, h, outState]

lemma start_spawn_err (s : Service) (e : StartEnv) (en : Nat)
    (he : e.spawnErrno = some en) :
    outState (Service.start e s).1 = s := by
  by_cases h1 : en = 2 <;> by_cases h2 : en = 13 <;>
    simp [Service.start, he, h1, h2, ENOENT, EACCES, outState]

lemma start_preserves (s : Service) (e : StartEnv) :
    (outState (Service.start e s).1).port = s.port ∧
    (outState (Service.start e s).1).path = s.path ∧
    (outState (Service.start e s).1).service_args = s.service_args ∧
    (outState (Service.start e s).1).env = s.env := by
  cases he : e.spawnErrno with
  | some en =>
      rw [start_spawn_err s e en he]
      exact ⟨rfl, rfl, rfl, rfl⟩
  | none =>
      rw [start_spawn_ok s e he]
      exact ⟨rfl, rfl, rfl, rfl⟩

lemma stop_preserves (s : Service) (e : StopEnv) :
    (outState (Service.stop e s)).port = s.port ∧
    (outState (Service.stop e s)).path = s.path ∧
    (outState (Service.stop e s)).service_args = s.service_args ∧
    (outState (Service.stop e s)).env = s.env := by
  cases hp : s.process with
  | unset => simp [Service.stop, hp, outState]
  | val op =>
      cases op with
      | none => simp [Service.stop, hp, outState]
      | some p =>
          by_cases hu : e.urlopenOk <;> by_cases hk : e.killRaises <;>
            simp [Service.stop, hp, hu, hk, outState]

lemma stop_keeps_handle (s : Service) (e : StopEnv) (p : Proc)
    (hp : s.process = Attr.val (some p)) :
    hasHandle (outState (Service.stop e s)).process = true := by
  by_cases hu : e.urlopenOk <;> by_cases hk : e.killRaises <;>
    simp [Service.stop, hp, hu, hk, outState, hasHandle]

/-- C1: the claim says `stop()` before any `start()` is a silent no-op,
and that is clearly the code's intent (the `if self.process is None:
return` guard and its comment), but `__init__` never assigns
`self.process`, so on every freshly constructed instance `stop()`
instead raises `AttributeError` when it reads the attribute. -/
theorem C1_stop_before_start_raises (freePort : Nat) (path : String)
    (port : Nat) (sa : Option (List String)) (lp : Option String)
    (env0 : Option (List (String × String))) (e : StopEnv) :
    Service.stop e (Service.init freePort path port sa lp env0) =
      Except.error (PyErr.attributeError,
        Service.init freePort path port sa lp env0) := by
  have hp : (Service.init freePort path port sa lp env0).process =
      Attr.unset := rfl
  simp [Service.stop, hp]

/-- C7: a port given as 0 is resolved at construction to the value the
ephemeral-port oracle (`utils.free_port()`) returns; a nonzero port is
kept as given; and neither `start` nor `stop` (nor the pure
`service_url`) ever changes the stored port afterwards. -/
theorem C7_port_resolution (freePort : Nat) (path : String) (port : Nat)
    (sa : Option (List String)) (lp : Option String)
    (env0 : Option (List (String × String))) (hport : port ≠ 0) :
    (Service.init freePort path 0 sa lp env0).port = freePort
    ∧ (Service.init freePort path port sa lp env0).port = port
    ∧ (∀ (s : Service) (e : StartEnv),
        (outState (Service.start e s).1).port = s.port)
    ∧ (∀ (s : Service) (e : StopEnv),
        (outState (Service.stop e s)).port = s.port) := by
  refine ⟨rfl, ?_, ?_, ?_⟩
  · simp [Service.init, hport]
  · intro s e; exact (start_preserves s e).1
  · intro s e; exact (stop_preserves s e).1

/-- C7 witness: concrete instantiation with an ephemeral port 9515 and a
caller-chosen port 4444. -/
theorem C7_port_resolution_witness :
    (Service.init 9515 "chromedriver" 0 none none none).port = 9515
    ∧ (Service.init 9515 "chromedriver" 4444 none none none).port = 4444
    ∧ (∀ (s : Service) (e : StartEnv),
        (outState (Service.start e s).1).port = s.port)
    ∧ (∀ (s : Service) (e : StopEnv),
        (outState (Service.stop e s)).port = s.port) :=
  C7_port_resolution 9515 "chromedriver" 4444 none none none (by decide)

/-- C9: `service_url` is the pure string `"http://localhost:" ++ port`
for every instance, in particular for every constructed instance, and
its value is unaffected by `start` and `stop` (it depends only on the
port, which those operations never change). -/
theorem C9_service_url_pure :
    (∀ s : Service, s.service_url = "http://localhost:" ++ toString s.port)
    ∧ (∀ (freePort : Nat) (path : String) (port : Nat)
        (sa : Option (List String)) (lp : Option String)
        (env0 : Option (List (String × String))),
        (Service.init freePort path port sa lp env0).service_url =
          "http://localhost:" ++
            toString (Service.init freePort path port sa lp env0).port)
    ∧ (∀ (s : Service) (e : StartEnv),
        (outState (Service.start e s).1).service_url = s.service_url)
    ∧ (∀ (s : Service) (e : StopEnv),
        (outState (Service.stop e s)).service_url = s.service_url) := by
  refine ⟨fun s => rfl, fun _ _ _ _ _ _ => rfl, ?_, ?_⟩
  · intro s e
    show "http://localhost:" ++ toString (outState (Service.start e s).1).port
        = "http://localhost:" ++ toString s.port
    rw [(start_preserves s e).1]
  · intro s e
    show "http://localhost:" ++ toString (outState (Service.stop e s)).port
        = "http://localhost:" ++ toString s.port
    rw [(stop_preserves s e).1]

/-- C10: the spawn environment is `self.env or os.environ`: a missing
environment and an empty (falsy) environment both fall back to the
inherited `os.environ`; a non-empty mapping is passed as given.  The
handle `start` stores records exactly this effective environment. -/
theorem C10_env_fallback (s1 s2 s3 : Service) (e : StartEnv)
    (l : List (String × String))
    (h1 : s1.env = none) (h2 : s2.env = some []) (h3 : s3.env = some l)
    (hl : l ≠ []) (he : e.spawnErrno = none) :
    (spawnedProc s1 e).procEnv = e.osEnviron
    ∧ (spawnedProc s2 e).procEnv = e.osEnviron
    ∧ (spawnedProc s3 e).procEnv = l
    ∧ (∀ s : Service, (outState (Service.start e s).1).process =
        Attr.val (some (spawnedProc s e))) := by
  refine ⟨?_, ?_, ?_, ?_⟩
  · simp [spawnedProc, effectiveEnv, h1]
  · simp [spawnedProc, effectiveEnv, h2]
  · simp [spawnedProc, effectiveEnv, h3, hl]
  · intro s
    rw [start_spawn_ok s e he]

/-- C10 witness: three concrete instances (no environment, empty
environment, one-entry environment) spawned with a one-entry
`os.environ`. -/
theorem C10_env_fallback_witness :
    (spawnedProc { initS with env := none }
        ⟨none, connAlways, [("PATH", "/usr/bin")]⟩).procEnv =
      [("PATH", "/usr/bin")]
    ∧ (spawnedProc { initS with env := some [] }
        ⟨none, connAlways, [("PATH", "/usr/bin")]⟩).procEnv =
      [("PATH", "/usr/bin")]
    ∧ (spawnedProc { initS with env := some [("K", "V")] }
        ⟨none, connAlways, [("PATH", "/usr/bin")]⟩).procEnv = [("K", "V")]
    ∧ (∀ s : Service,
        (outState
          (Service.start ⟨none, connAlways, [("PATH", "/usr/bin")]⟩ s).1).process
          = Attr.val
              (some (spawnedProc s ⟨none, connAlways, [("PATH", "/usr/bin")]⟩))) := by
  have h := C10_env_fallback { initS with env := none }
    { initS with env := some [] } { initS with env := some [("K", "V")] }
    ⟨none, connAlways, [("PATH", "/usr/bin")]⟩ [("K", "V")]
    rfl rfl rfl (by decide) rfl
  exact h

/-- C3: after a successful spawn, a port that never accepts connections
makes `start` raise the unreachable `WebDriverException` — whose message
names the executable's base name — after exactly 30 failed probes, while
a port that accepts on the first probe makes `start` return normally
after exactly 1 probe. -/
theorem C3_readiness_polling (s : Service) (e e1 : StartEnv)
    (he : e.spawnErrno = none) (hc : ∀ i, e.conn i = false)
    (he1 : e1.spawnErrno = none) (hc1 : e1.conn 0 = true) :
    Service.start e s =
      (Except.error (PyErr.webDriverException (unreachableMsg s.path),
        { s with process := Attr.val (some (spawnedProc s e)) }), 30)
    ∧ unreachableMsg s.path =
        "Can not connect to the " ++ quoteChar ++ basename s.path ++ quoteChar
    ∧ Service.start e1 s =
        (Except.ok { s with process := Attr.val (some (spawnedProc s e1)) },
          1) := by
  refine ⟨?_, rfl, ?_⟩
  · have h30 := startPoll_never e.conn hc 30 0
    simp [Service.start, he, h30]
  · have hstep : startPoll e1.conn 0 30 = Except.ok 1 := by
      have : (30 : Nat) = 29 + 1 := rfl
      rw [this, startPoll, hc1]
      simp
    simp [Service.start, he1, hstep]

/-- C3 witness: the concrete instance `Service("chromedriver")` with a
never-listening port and with a first-probe-connectable port. -/
theorem C3_readiness_polling_witness :
    Service.start ⟨none, connNever, []⟩ initS =
      (Except.error (PyErr.webDriverException (unreachableMsg initS.path),
        { initS with
            process := Attr.val (some (spawnedProc initS ⟨none, connNever, []⟩)) }),
        30)
    ∧ unreachableMsg initS.path =
        "Can not connect to the " ++ quoteChar ++ basename initS.path ++
          quoteChar
    ∧ Service.start ⟨none, connAlways, []⟩ initS =
        (Except.ok { initS with
            process := Attr.val (some (spawnedProc initS ⟨none, connAlways, []⟩)) },
          1) :=
  C3_readiness_polling initS ⟨none, connNever, []⟩ ⟨none, connAlways, []⟩
    rfl (fun _ => rfl) rfl rfl

/-- C5: a spawn failing with `ENOENT` raises the `WebDriverException`
whose message names the executable's base name and the help pointer; a
spawn failing with `EACCES` raises the permission-shaped message; any
other `OSError` errno is re-raised unchanged. -/
theorem C5_spawn_error_classification (s : Service) (e1 e2 e3 : StartEnv)
    (n : Nat) (h1 : e1.spawnErrno = some ENOENT)
    (h2 : e2.spawnErrno = some EACCES) (h3 : e3.spawnErrno = some n)
    (hn1 : n ≠ ENOENT) (hn2 : n ≠ EACCES) :
    Service.start e1 s =
      (Except.error (PyErr.webDriverException (enoentMsg s.path), s), 0)
    ∧ Service.start e2 s =
      (Except.error (PyErr.webDriverException (eaccesMsg s.path), s), 0)
    ∧ Service.start e3 s = (Except.error (PyErr.osError n, s), 0)
    ∧ enoentMsg s.path = quoteChar ++ basename s.path ++ quoteChar ++
        " executable needs to be in PATH. " ++ docs_msg
    ∧ eaccesMsg s.path = quoteChar ++ basename s.path ++ quoteChar ++
        " executable may have wrong permissions. " ++ docs_msg := by
  refine ⟨?_, ?_, ?_, rfl, rfl⟩
  · simp [Service.start, h1, ENOENT]
  · simp [Service.start, h2, ENOENT, EACCES]
  · rw [ENOENT] at hn1
    rw [EACCES] at hn2
    simp [Service.start, h3, ENOENT, EACCES, hn1, hn2]

/-- C5 witness: `Service("/opt/chromedriver")` spawned with errnos 2
(ENOENT), 13 (EACCES) and 5 (EIO, left unclassified). -/
theorem C5_spawn_error_classification_witness :
    Service.start ⟨some ENOENT, connNever, []⟩ initS =
      (Except.error (PyErr.webDriverException (enoentMsg initS.path), initS),
        0)
    ∧ Service.start ⟨some EACCES, connNever, []⟩ initS =
      (Except.error (PyErr.webDriverException (eaccesMsg initS.path), initS),
        0)
    ∧ Service.start ⟨some 5, connNever, []⟩ initS =
      (Except.error (PyErr.osError 5, initS), 0)
    ∧ enoentMsg initS.path = quoteChar ++ basename initS.path ++ quoteChar ++
        " executable needs to be in PATH. " ++ docs_msg
    ∧ eaccesMsg initS.path = quoteChar ++ basename initS.path ++ quoteChar ++
        " executable may have wrong permissions. " ++ docs_msg :=
  C5_spawn_error_classification initS ⟨some ENOENT, connNever, []⟩
    ⟨some EACCES, connNever, []⟩ ⟨some 5, connNever, []⟩ 5
    rfl rfl rfl (by decide) (by decide)

/-- C6: the spawned argument vector is exactly the executable path, the
`--port=<port>` flag, then the extra arguments in order; a non-empty log
path adds one `--log-path=<path>` entry at construction, exactly once,
and neither `start` nor `stop` ever changes the stored argument list, so
repeated calls never duplicate it. -/
theorem C6_argument_vector (freePort : Nat) (path : String) (port : Nat)
    (args : List String) (lp : String)
    (env0 : Option (List (String × String))) (e : StartEnv)
    (hlp : lp ≠ "") (he : e.spawnErrno = none) :
    (∀ s : Service, (spawnedProc s e).argv =
        s.path :: ("--port=" ++ toString s.port) :: s.service_args)
    ∧ (∀ s : Service, (outState (Service.start e s).1).process =
        Attr.val (some (spawnedProc s e)))
    ∧ (Service.init freePort path port (some args) (some lp) env0).service_args
        = args ++ [logFlag lp]
    ∧ ((Service.init freePort path port (some args) (some lp) env0).service_args).count
          (logFlag lp) = args.count (logFlag lp) + 1
    ∧ (∀ s : Service,
        (outState (Service.start e s).1).service_args = s.service_args)
    ∧ (∀ (s : Service) (e2 : StopEnv),
        (outState (Service.stop e2 s)).service_args = s.service_args) := by
  have hinit : (Service.init freePort path port (some args) (some lp)
      env0).service_args = args ++ [logFlag lp] := by
    simp [Service.init, hlp]
  refine ⟨fun s => rfl, ?_, hinit, ?_, ?_, ?_⟩
  · intro s; rw [start_spawn_ok s e he]
  · rw [hinit]
    simp [List.count_append]
  · intro s; exact (start_preserves s e).2.2.1
  · intro s e2; exact (stop_preserves s e2).2.2.1

/-- C6 witness: `Service("chromedriver", service_args=["--verbose"],
log_path="/tmp/ chromedriver.log")` spawned successfully. -/
theorem C6_argument_vector_witness :
    (∀ s : Service, (spawnedProc s ⟨none, connAlways, []⟩).argv =
        s.path :: ("--port=" ++ toString s.port) :: s.service_args)
    ∧ (∀ s : Service,
        (outState (Service.start ⟨none, connAlways, []⟩ s).1).process =
          Attr.val (some (spawnedProc s ⟨none, connAlways, []⟩)))
    ∧ (Service.init 9515 "chromedriver" 0 (some ["--verbose"])
        (some "/tmp/chromedriver.log") none).service_args =
        ["--verbose"] ++ [logFlag "/tmp/chromedriver.log"]
    ∧ ((Service.init 9515 "chromedriver" 0 (some ["--verbose"])
        (some "/tmp/chromedriver.log") none).service_args).count
          (logFlag "/tmp/chromedriver.log") =
        (["--verbose"]).count (logFlag "/tmp/chromedriver.log") + 1
    ∧ (∀ s : Service,
        (outState (Service.start ⟨none, connAlways, []⟩ s).1).service_args =
          s.service_args)
    ∧ (∀ (s : Service) (e2 : StopEnv),
        (outState (Service.stop e2 s)).service_args = s.service_args) :=
  C6_argument_vector 9515 "chromedriver" 0 ["--verbose"]
    "/tmp/chromedriver.log" none ⟨none, connAlways, []⟩ (by decide) rfl

/-- C2 counterexample: `start` succeeds on `Service("chromedriver")`,
but a `stop` in which the `/shutdown` GET raises propagates that error
before any cleanup ran — the handle still has both pipes open and the
process was neither killed nor waited on, refuting the claim that
cleanup happens even when the GET errors. -/
theorem C2_counterexample :
    (Service.start ⟨none, connAlways, []⟩ initS).1 = Except.ok startedS
    ∧ Service.stop ⟨false, connNever, false⟩ startedS =
        Except.error (PyErr.urlError, startedS)
    ∧ startedS.process = Attr.val (some procA)
    ∧ procA.stdoutOpen = true ∧ procA.stderrOpen = true
    ∧ procA.killed = false ∧ procA.waited = false :=
  ⟨rfl, rfl, rfl, rfl, rfl, rfl, rfl⟩

/-- C2 (amended): when the `/shutdown` GET does not raise (and the kill
signal is supported), `stop` on a started instance closes both captured
streams, kills the process and waits on it; when the GET raises, the
error propagates out of `stop` and none of the forced cleanup runs. -/
theorem C2_stop_forced_cleanup (s : Service) (p : Proc) (e1 e2 : StopEnv)
    (hp : s.process = Attr.val (some p))
    (hu1 : e1.urlopenOk = true) (hk1 : e1.killRaises = false)
    (hu2 : e2.urlopenOk = false) :
    Service.stop e1 s =
      Except.ok { s with process := Attr.val (some
        { p with stdoutOpen := false, stderrOpen := false,
                 killed := true, waited := true }) }
    ∧ Service.stop e2 s = Except.error (PyErr.urlError, s) := by
  constructor
  · simp [Service.stop, hp, hu1, hk1]
  · simp [Service.stop, hp, hu2]

/-- C2 witness: the started `Service("chromedriver")` instance, stopped
once with a working `/shutdown` endpoint and once with a failing one. -/
theorem C2_stop_forced_cleanup_witness :
    Service.stop ⟨true, connNever, false⟩ startedS =
      Except.ok { startedS with process := Attr.val (some
        { procA with stdoutOpen := false, stderrOpen := false,
                     killed := true, waited := true }) }
    ∧ Service.stop ⟨false, connNever, false⟩ startedS =
        Except.error (PyErr.urlError, startedS) :=
  C2_stop_forced_cleanup startedS procA ⟨true, connNever, false⟩
    ⟨false, connNever, false⟩ rfl rfl rfl rfl

/-- C4 counterexample: when readiness polling fails after a successful
spawn, `start` raises but the process handle is present in the resulting
state, refuting "absent after a start() that fails readiness polling";
and it also stays present after a completed `stop` (see `stoppedS`). -/
theorem C4_counterexample :
    Service.start ⟨none, connNever, []⟩ initS =
      (Except.error (PyErr.webDriverException (unreachableMsg "chromedriver"),
        startedS), 30)
    ∧ startedS.process = Attr.val (some procA)
    ∧ Service.stop ⟨true, connNever, false⟩ startedS = Except.ok stoppedS
    ∧ stoppedS.process = Attr.val (some procStopped) :=
  ⟨rfl, rfl, rfl, rfl⟩

/-- C4 (amended): the `process` attribute is unset after construction
(reading it raises `AttributeError`), it is assigned exactly when a
`start` call achieved a successful spawn — including when readiness
polling then failed — a failed spawn leaves it untouched, and `stop`
never clears it. -/
theorem C4_process_handle_lifecycle (freePort : Nat) (path : String)
    (port : Nat) (sa : Option (List String)) (lp : Option String)
    (env0 : Option (List (String × String))) :
    (Service.init freePort path port sa lp env0).process = Attr.unset
    ∧ (∀ (s : Service) (e : StartEnv), e.spawnErrno = none →
        (outState (Service.start e s).1).process =
          Attr.val (some (spawnedProc s e)))
    ∧ (∀ (s : Service) (e : StartEnv) (en : Nat), e.spawnErrno = some en →
        (outState (Service.start e s).1).process = s.process)
    ∧ (∀ (s : Service) (e : StopEnv) (p : Proc),
        s.process = Attr.val (some p) →
        hasHandle (outState (Service.stop e s)).process = true) := by
  refine ⟨rfl, ?_, ?_, ?_⟩
  · intro s e he; rw [start_spawn_ok s e he]
  · intro s e en he; rw [start_spawn_err s e en he]
  · intro s e p hp; exact stop_keeps_handle s e p hp

/-- C4 witness: `Service("chromedriver")` constructed, started with a
successful and with a failed spawn, and stopped after a start. -/
theorem C4_process_handle_lifecycle_witness :
    (Service.init 9515 "chromedriver" 0 none none none).process = Attr.unset
    ∧ (outState (Service.start ⟨none, connAlways, []⟩ initS).1).process =
        Attr.val (some (spawnedProc initS ⟨none, connAlways, []⟩))
    ∧ (outState (Service.start ⟨some 5, connAlways, []⟩ initS).1).process =
        initS.process
    ∧ hasHandle
        (outState (Service.stop ⟨true, connNever, false⟩ startedS)).process =
        true := by
  have h := C4_process_handle_lifecycle 9515 "chromedriver" 0 none none none
  exact ⟨h.1, h.2.1 initS ⟨none, connAlways, []⟩ rfl,
    h.2.2.1 initS ⟨some 5, connAlways, []⟩ 5 rfl,
    h.2.2.2 startedS ⟨true, connNever, false⟩ procA rfl⟩

/-- C8 counterexample: after a successful `stop`, the process handle is
not cleared, so a second `stop` re-issues the `/shutdown` request; since
the server is now dead that request raises, and the second `stop`
propagates the error instead of succeeding, refuting the claimed
idempotence. -/
theorem C8_counterexample :
    Service.stop ⟨true, connNever, false⟩ startedS = Except.ok stoppedS
    ∧ stoppedS.process = Attr.val (some procStopped)
    ∧ Service.stop ⟨false, connNever, false⟩ stoppedS =
        Except.error (PyErr.urlError, stoppedS) :=
  ⟨rfl, rfl, rfl⟩

/-- C8 (amended): a second `stop` after a successful `stop` is not an
immediate no-op — the handle is still set, so the whole shutdown
sequence re-runs; it completes without error and leaves the stopped
state unchanged exactly when the re-issued `/shutdown` request does not
raise, and propagates the request's error otherwise. -/
theorem C8_second_stop (s : Service) (p : Proc) (e1 e2 : StopEnv)
    (hp : s.process = Attr.val (some p))
    (hso : p.stdoutOpen = false) (hse : p.stderrOpen = false)
    (hk : p.killed = true) (hw : p.waited = true)
    (hu1 : e1.urlopenOk = true) (hk1 : e1.killRaises = false)
    (hu2 : e2.urlopenOk = false) :
    Service.stop e1 s = Except.ok s
    ∧ Service.stop e2 s = Except.error (PyErr.urlError, s) := by
  have hpeq : { p with stdoutOpen := false, stderrOpen := false,
                       killed := true, waited := true } = p := by
    cases p
    simp_all
  have hseq : { s with process := Attr.val (some p) } = s := by
    rw [← hp]
  constructor
  · simp [Service.stop, hp, hu1, hk1, hpeq, hseq]
  · simp [Service.stop, hp, hu2]

/-- C8 witness: the stopped `Service("chromedriver")` instance, stopped
again once with a still-working `/shutdown` endpoint and once with the
realistic failing one. -/
theorem C8_second_stop_witness :
    Service.stop ⟨true, connNever, false⟩ stoppedS = Except.ok stoppedS
    ∧ Service.stop ⟨false, connNever, false⟩ stoppedS =
        Except.error (PyErr.urlError, stoppedS) :=
  C8_second_stop stoppedS procStopped ⟨true, connNever, false⟩
    ⟨false, connNever, false⟩ rfl rfl rfl rfl rfl rfl rfl rfl
